import Mathlib

/-!
Verification of the AutoHome Mosquitto authorization plugin
(`src/auth/src/auth-plugin.c`) against its natural-language specification.

The C sources are shallowly embedded: C strings become lists of byte values
(`CStr`), machine words become `Nat` reduced modulo `2 ^ 32` where overflow
matters, the SQLite calls made by the plugin become explicit call-outcome
records, and undefined behaviour (reading uninitialized buffers, passing a
null pointer to `strlen`) becomes `Option.none`.
-/

namespace AutoHome

/-- Bytes of a NUL-terminated C string: the list of its byte values
(each below 256; a C string cannot contain a zero byte). -/
abbrev CStr := List Nat

/-! ## SHA-256

Modelled from the spec: the plugin calls `sha256_init` / `sha256_update` /
`sha256_final` from the bundled sha2 library, whose source is not under
`src/`; the spec (section 4.3) fixes the digest to standard SHA-256
(FIPS 180-4), which is implemented here over byte lists. -/

/-- Reduce a natural number to a 32-bit word. -/
def w32 (n : Nat) : Nat := n % 4294967296

/-- Right rotation of a 32-bit word by `n` bits. -/
def rotR (n x : Nat) : Nat := w32 ((x >>> n) ||| (x <<< (32 - n)))

/-- Bitwise complement of a 32-bit word. -/
def bnot32 (x : Nat) : Nat := x ^^^ 4294967295

/-- The SHA-256 choice function. -/
def ch32 (x y z : Nat) : Nat := (x &&& y) ^^^ (bnot32 x &&& z)

/-- The SHA-256 majority function. -/
def maj32 (x y z : Nat) : Nat := (x &&& y) ^^^ (x &&& z) ^^^ (y &&& z)

/-- The SHA-256 big sigma-0 function. -/
def bigS0 (x : Nat) : Nat := rotR 2 x ^^^ rotR 13 x ^^^ rotR 22 x

/-- The SHA-256 big sigma-1 function. -/
def bigS1 (x : Nat) : Nat := rotR 6 x ^^^ rotR 11 x ^^^ rotR 25 x

/-- The SHA-256 small sigma-0 function. -/
def lowS0 (x : Nat) : Nat := rotR 7 x ^^^ rotR 18 x ^^^ (x >>> 3)

/-- The SHA-256 small sigma-1 function. -/
def lowS1 (x : Nat) : Nat := rotR 17 x ^^^ rotR 19 x ^^^ (x >>> 10)

/-- The eight 32-bit words of the SHA-256 working state. -/
abbrev Hash8 := Nat × Nat × Nat × Nat × Nat × Nat × Nat × Nat

/-- The 64 SHA-256 round constants, written in decimal. -/
def shaK : List Nat :=
  [1116352408, 1899447441, 3049323471, 3921009573, 961987163,
   1508970993, 2453635748, 2870763221, 3624381080, 310598401,
   607225278, 1426881987, 1925078388, 2162078206, 2614888103,
   3248222580, 3835390401, 4022224774, 264347078, 604807628,
   770255983, 1249150122, 1555081692, 1996064986, 2554220882,
   2821834349, 2952996808, 3210313671, 3336571891, 3584528711,
   113926993, 338241895, 666307205, 773529912, 1294757372,
   1396182291, 1695183700, 1986661051, 2177026350, 2456956037,
   2730485921, 2820302411, 3259730800, 3345764771, 3516065817,
   3600352804, 4094571909, 275423344, 430227734, 506948616,
   659060556, 883997877, 958139571, 1322822218, 1537002063,
   1747873779, 1955562222, 2024104815, 2227730452, 2361852424,
   2428436474, 2756734187, 3204031479, 3329325298]

/-- The SHA-256 initial hash value, written in decimal. -/
def shaH0 : Hash8 :=
  (1779033703, 3144134277, 1013904242, 2773480762,
   1359893119, 2600822924, 528734635, 1541459225)

/-- The `n` big-endian bytes of a value. -/
def beBytes : Nat → Nat → List Nat
  | 0, _ => []
  | n + 1, v => (v >>> (8 * n)) % 256 :: beBytes n v

/-- SHA-256 padding: append `0x80`, zeros, and the 64-bit big-endian bit
length, reaching a multiple of 64 bytes. -/
def padMessage (m : List Nat) : List Nat :=
  m ++ 128 :: List.replicate ((119 - m.length % 64) % 64) 0 ++ beBytes 8 (8 * m.length)

/-- Group a byte list into big-endian 32-bit words. -/
def toWords : List Nat → List Nat
  | a :: b :: c :: d :: r => (((a * 256 + b) * 256 + c) * 256 + d) :: toWords r
  | _ => []

/-- Pack a word list into one number, the head word least significant, so
the sliding 16-word schedule window is a single number the kernel handles
cheaply. -/
def packWords : List Nat → Nat
  | [] => 0
  | w :: ws => w + 4294967296 * packWords ws

/-- Produce `n` message-schedule extension words from the packed window of
the previous 16 words (w[t-16] least significant, w[t-1] most). -/
def extendGo : Nat → Nat → List Nat
  | 0, _ => []
  | n + 1, win =>
      let nw := w32 (lowS1 ((win >>> 448) % 4294967296) + (win >>> 288) % 4294967296 +
                     lowS0 ((win >>> 32) % 4294967296) + win % 4294967296)
      nw :: extendGo n ((win >>> 32) + (nw <<< 480))

/-- The SHA-256 round function, folded over round constants and schedule,
carrying the eight working registers as arguments. -/
def roundsGo : List Nat → List Nat → Nat → Nat → Nat → Nat → Nat → Nat → Nat → Nat → Hash8
  | k :: ks, w :: ws, a, b, c, d, e, f, g, h =>
      let t1 := w32 (h + bigS1 e + ch32 e f g + k + w)
      let t2 := w32 (bigS0 a + maj32 a b c)
      roundsGo ks ws (w32 (t1 + t2)) a b c (w32 (d + t1)) e f g
  | _, _, a, b, c, d, e, f, g, h => (a, b, c, d, e, f, g, h)

/-- Compress one 16-word block into the working state. -/
def compress (st : Hash8) (blk : List Nat) : Hash8 :=
  match st with
  | (a, b, c, d, e, f, g, h) =>
      match roundsGo shaK (blk ++ extendGo 48 (packWords blk)) a b c d e f g h with
      | (a2, b2, c2, d2, e2, f2, g2, h2) =>
          (w32 (a + a2), w32 (b + b2), w32 (c + c2), w32 (d + d2),
           w32 (e + e2), w32 (f + f2), w32 (g + g2), w32 (h + h2))

/-- Process a padded message, 16 words (one block) at a time. -/
def processBlocks (st : Hash8) : List Nat → Hash8
  | w0 :: w1 :: w2 :: w3 :: w4 :: w5 :: w6 :: w7 ::
    w8 :: w9 :: w10 :: w11 :: w12 :: w13 :: w14 :: w15 :: rest =>
      processBlocks
        (compress st [w0, w1, w2, w3, w4, w5, w6, w7, w8, w9, w10, w11, w12, w13, w14, w15]) rest
  | _ => st

/-- SHA-256 digest (32 bytes) of a byte list. -/
def sha256 (m : List Nat) : List Nat :=
  match processBlocks shaH0 (toWords (padMessage m)) with
  | (a, b, c, d, e, f, g, h) =>
      beBytes 4 a ++ beBytes 4 b ++ beBytes 4 c ++ beBytes 4 d ++
      beBytes 4 e ++ beBytes 4 f ++ beBytes 4 g ++ beBytes 4 h

/-- ASCII code of the lowercase hexadecimal digit for `d < 16`, as produced
by the plugin's digit table `"0123456789abcdef"`. -/
def hexDigit (d : Nat) : Nat := if d < 10 then 48 + d else 87 + d

/-- Lowercase hexadecimal encoding of a byte list, as produced by the
base16 encoding loop of `mosquitto_auth_unpwd_check` (two digits per byte,
high nibble first). -/
def hexEncode : List Nat → List Nat
  | [] => []
  | b :: bs => hexDigit (b / 16) :: hexDigit (b % 16) :: hexEncode bs

/-! ## Return codes

Numeric values from `sqlite3.h`, `mosquitto.h` and the plugin's own
`enum return_codes`. -/

/-- SQLite: successful result. -/
def SQLITE_OK : Nat := 0

/-- SQLite: generic error code. -/
def SQLITE_ERROR : Nat := 1

/-- mosquitto: call succeeded (access granted). -/
def MOSQ_ERR_SUCCESS : Nat := 0

/-- mosquitto: authentication failed (access denied). -/
def MOSQ_ERR_AUTH : Nat := 11

/-- mosquitto: ACL denied the access. -/
def MOSQ_ERR_ACL_DENIED : Nat := 12

/-- mosquitto: an application-specific error occurred. -/
def MOSQ_ERR_UNKNOWN : Nat := 13

/-- Plugin `enum return_codes`: operation succeeded. -/
def SUCCESS : Nat := 0

/-- Plugin `enum return_codes`: operation was not required
(the table already existed). -/
def NOTREQUIRED : Nat := 102

/-! ## Credential lookup (`retrieve_password`)

The four SQLite calls made by one invocation of `retrieve_password`
(`sqlite3_reset`, `sqlite3_bind_text`, `sqlite3_step`, `sqlite3_reset`) are
embedded as a record of their outcomes, so the function's control flow can be
followed on every path the C code has. -/

/-- Outcome of the `sqlite3_step` call: no row (`SQLITE_DONE`), a row with
the `hash` and `salt` column texts (`SQLITE_ROW`), or any other return
code `e` (a step failure). -/
inductive StepResult where
  | done : StepResult
  | row : CStr → CStr → StepResult
  | fail : Nat → StepResult

/-- Outcomes of the four SQLite calls made by one `retrieve_password`
invocation, in program order: the leading `sqlite3_reset`, the
`sqlite3_bind_text`, the `sqlite3_step`, and the trailing `sqlite3_reset`. -/
structure StmtCalls where
  reset1 : Nat
  bindRc : Nat
  step : StepResult
  reset2 : Nat

/-- Execution state of the compiled lookup query: `ready` after a reset,
`busy` once stepped and not yet reset.  `sqlite3_reset` returns the
statement to `ready` even when it reports an error code. -/
inductive StmtState where
  | ready : StmtState
  | busy : StmtState
deriving DecidableEq

/-- Shallow embedding of `retrieve_password` (auth-plugin.c:243).  Returns
the C return value together with the contents of the caller's `hash`/`salt`
buffers (`none` when the function returns without writing them, i.e. they
keep their uninitialized stack contents), and the execution state of the
compiled query at return.  `strncpy` into the 65-byte buffers followed by a
forced terminator keeps at most the first 64 bytes of each column. -/
def retrieve_password (c : StmtCalls) (entry : StmtState) : (Nat × Option (CStr × CStr)) × StmtState :=
  match entry with
  | _ =>
    if c.reset1 ≠ SQLITE_OK then ((c.reset1, none), StmtState.ready)
    else if c.bindRc ≠ SQLITE_OK then ((c.bindRc, none), StmtState.ready)
    else
      match c.step with
      | StepResult.fail e => ((e, none), StmtState.busy)
      | StepResult.done =>
          if c.reset2 ≠ SQLITE_OK then ((c.reset2, some ([], [])), StmtState.ready)
          else ((SQLITE_OK, some ([], [])), StmtState.ready)
      | StepResult.row h s =>
          if c.reset2 ≠ SQLITE_OK then ((c.reset2, some (h.take 64, s.take 64)), StmtState.ready)
          else ((SQLITE_OK, some (h.take 64, s.take 64)), StmtState.ready)

/-- The plugin context fields consulted by the checks: the optional
configured superuser name and the optional configured guest secret
(`NULL` pointers become `none`). -/
structure Context where
  superuser : Option CStr
  guestsecret : Option CStr

/-- Shallow embedding of `mosquitto_auth_unpwd_check` (auth-plugin.c:550).
`username`/`password` are `none` when the host passes `NULL`.  The result is
`none` where the C code's behaviour is undefined: reading the uninitialized
`hash` buffer, or calling `strlen` on a `NULL` password in the hashing
branch. -/
def unpwd_check (ctx : Context) (c : StmtCalls) (username password : Option CStr) : Option Nat :=
  match username with
  | none => some MOSQ_ERR_AUTH
  | some _ =>
    let r := (retrieve_password c StmtState.ready).1
    if r.1 ≠ SQLITE_OK then some MOSQ_ERR_UNKNOWN
    else
      match r.2 with
      | none => none
      | some (hash, salt) =>
        if hash.length = 0 then
          match ctx.guestsecret, password with
          | none, none => some MOSQ_ERR_SUCCESS
          | some g, some p => some (if g = p then MOSQ_ERR_SUCCESS else MOSQ_ERR_AUTH)
          | _, _ => some MOSQ_ERR_AUTH
        else
          match password with
          | none => none
          | some pw =>
              some (if hexEncode (sha256 (salt ++ pw)) = hash then MOSQ_ERR_SUCCESS else MOSQ_ERR_AUTH)

/-- Shallow embedding of `mosquitto_auth_acl_check` (auth-plugin.c:498).
`clientid`/`username` are `none` when the host passes `NULL`; 47 is the byte
value of the `'/'` separator.  The character-by-character loop of the C code
is the equality `topic.take u.length = u`, which it reaches only after
establishing `topic.length ≥ u.length + 2`. -/
def acl_check (ctx : Context) (clientid username : Option CStr) (topic : CStr) (access : Nat) : Nat :=
  match clientid, username with
  | some cid, some u =>
    if ctx.superuser = some u then MOSQ_ERR_SUCCESS
    else if cid ≠ u then MOSQ_ERR_ACL_DENIED
    else if topic.length < u.length + 2 then MOSQ_ERR_ACL_DENIED
    else if topic.take u.length ≠ u then MOSQ_ERR_ACL_DENIED
    else if topic.getD u.length 0 ≠ 47 then MOSQ_ERR_ACL_DENIED
    else MOSQ_ERR_SUCCESS
  | _, _ => MOSQ_ERR_ACL_DENIED

/-! ## Schema initialization (`create_table` and the three tables)

The store itself is external to the sources (SQLite); the two primitives the
plugin's SQL strings rely on are modelled from the spec below, and
`create_table` / the three `create_table` calls of
`mosquitto_auth_plugin_init` are embedded over them. -/

/-- A table of the store: its name, its column definition string, and its
rows. -/
structure Table where
  name : String
  defn : String
  rows : List (List String)

/-- The store: its list of tables. -/
structure DB where
  tables : List Table

/-- Whether the store has a table named `n`. -/
def hasTable (db : DB) (n : String) : Bool := db.tables.any (fun t => t.name == n)

/-- Modelled from the spec: the `select count(*) from sqlite_master where
type='table' and name='...'` query run by `create_table`; table names are
unique in `sqlite_master`, so the count is 0 or 1. -/
def countTable (db : DB) (n : String) : Nat := if hasTable db n then 1 else 0

/-- Modelled from the spec: the `create table if not exists` statement run
by `create_table` — an atomic create-if-absent that adds an empty table and
leaves an existing table (and all rows) untouched. -/
def createIfNotExists (db : DB) (n d : String) : DB :=
  if hasTable db n then db else DB.mk (db.tables ++ [Table.mk n d []])

/-- Shallow embedding of `create_table` (auth-plugin.c:191) on its
non-error paths: count the matching `sqlite_master` rows; when zero, run the
`create table if not exists` statement and report `SUCCESS`; otherwise
report `NOTREQUIRED` without executing the creation statement. -/
def create_table (db : DB) (n d : String) : Nat × DB :=
  if countTable db n = 0 then (SUCCESS, createIfNotExists db n d)
  else (NOTREQUIRED, db)

/-- The `profile` table name. -/
def tblProfile : String := "profile"

/-- The `auth` table name. -/
def tblAuth : String := "auth"

/-- The `schedule` table name. -/
def tblSchedule : String := "schedule"

/-- Column definition of the `profile` table (auth-plugin.c:349). -/
def profileDefn : String :=
  "username text not null primary key,displayname text not null unique,type text not null,connected text not null,status text not null"

/-- Column definition of the `auth` table (auth-plugin.c:355). -/
def authDefn : String :=
  "username text not null primary key references profile on delete cascade,hash text not null,salt text not null"

/-- Column definition of the `schedule` table (auth-plugin.c:359). -/
def scheduleDefn : String :=
  "id integer not null primary key,username text not null references profile on delete cascade,command text not null,fuzzy int not null,recurrent int not null,firedate int not null,weekday int not null,hours int not null,minutes int not null"

/-- The three `create_table` calls of `mosquitto_auth_plugin_init`
(auth-plugin.c:349-367), in program order, returning the three reported
codes and the resulting store. -/
def init_tables (db : DB) : (Nat × Nat × Nat) × DB :=
  let p := create_table db tblProfile profileDefn
  let a := create_table p.2 tblAuth authDefn
  let s := create_table a.2 tblSchedule scheduleDefn
  ((p.1, a.1, s.1), s.2)

/-! ## General lemmas about the embedding -/

/-- The FIPS 180-4 test vector for "abc", validating the SHA-256 model. -/
theorem sha256_abc_vector : sha256 [97, 98, 99] =
    [0xba, 0x78, 0x16, 0xbf, 0x8f, 0x01, 0xcf, 0xea, 0x41, 0x41, 0x40, 0xde, 0x5d, 0xae, 0x22, 0x23,
     0xb0, 0x03, 0x61, 0xa3, 0x96, 0x17, 0x7a, 0x9c, 0xb4, 0x10, 0xff, 0x61, 0xf2, 0x00, 0x15, 0xad] := by
  decide

/-- `beBytes n` always yields `n` bytes. -/
theorem beBytes_length (n v : Nat) : (beBytes n v).length = n := by
  induction n generalizing v with
  | zero => rfl
  | succ n ih => simp [beBytes, ih]

/-- A SHA-256 digest has exactly 32 bytes. -/
theorem sha256_length (m : List Nat) : (sha256 m).length = 32 := by
  unfold sha256
  obtain ⟨a, b, c, d, e, f, g, h⟩ := processBlocks shaH0 (toWords (padMessage m))
  simp [beBytes_length]

/-- Hex encoding yields two characters per byte. -/
theorem hexEncode_length (l : List Nat) : (hexEncode l).length = 2 * l.length := by
  induction l with
  | nil => rfl
  | cons b bs ih => simp [hexEncode, ih]; omega

/-- A hex-encoded SHA-256 digest has exactly 64 characters. -/
theorem hexDigest_length (m : List Nat) : (hexEncode (sha256 m)).length = 64 := by
  rw [hexEncode_length, sha256_length]

/-- A hex-encoded SHA-256 digest is nonempty. -/
theorem hexDigest_ne_nil (m : List Nat) : hexEncode (sha256 m) ≠ [] := by
  intro h
  have hl := hexDigest_length m
  rw [h] at hl
  exact absurd hl (by decide)

/-- On a lookup that finds a row and a supplied password, `unpwd_check`
compares the hex-encoded digest of the buffer-truncated salt followed by
the password against the buffer-truncated stored hash (the 65-byte buffers
keep at most 64 characters of each column). -/
theorem unpwd_check_row_raw (ctx : Context) (u hash salt pw : CStr)
    (hne : hash.take 64 ≠ []) :
    unpwd_check ctx (StmtCalls.mk SQLITE_OK SQLITE_OK (StepResult.row hash salt) SQLITE_OK)
        (some u) (some pw)
      = some (if hexEncode (sha256 (salt.take 64 ++ pw)) = hash.take 64
              then MOSQ_ERR_SUCCESS else MOSQ_ERR_AUTH) := by
  have h4 : hash ≠ [] := by
    intro hh
    rw [hh] at hne
    exact hne rfl
  simp [unpwd_check, retrieve_password, SQLITE_OK, hne, h4]

/-- On a registered user (a row with a stored hash of 1 to 64 characters
and a salt of at most 64 characters, both fitting the retrieval buffers)
with a supplied password, `unpwd_check` compares the hex-encoded digest of
salt-then-password against the stored hash. -/
theorem unpwd_check_row_eq (ctx : Context) (u hash salt pw : CStr)
    (hne : hash ≠ []) (hh : hash.length ≤ 64) (hs : salt.length ≤ 64) :
    unpwd_check ctx (StmtCalls.mk SQLITE_OK SQLITE_OK (StepResult.row hash salt) SQLITE_OK)
        (some u) (some pw)
      = some (if hexEncode (sha256 (salt ++ pw)) = hash then MOSQ_ERR_SUCCESS else MOSQ_ERR_AUTH) := by
  have h1 : hash.take 64 = hash := List.take_of_length_le hh
  have h2 : salt.take 64 = salt := List.take_of_length_le hs
  rw [unpwd_check_row_raw ctx u hash salt pw (by rw [h1]; exact hne), h1, h2]

/-- When any of the four SQLite calls fails (with a nonzero code, as the
SQLite API guarantees for failures), `retrieve_password` returns a nonzero
code. -/
theorem retrieve_password_fail_ne (c : StmtCalls) (st : StmtState)
    (hwf : ∀ e, c.step = StepResult.fail e → e ≠ SQLITE_OK)
    (hfail : c.reset1 ≠ SQLITE_OK ∨ c.bindRc ≠ SQLITE_OK ∨
             (∃ e, c.step = StepResult.fail e) ∨ c.reset2 ≠ SQLITE_OK) :
    ((retrieve_password c st).1).1 ≠ SQLITE_OK := by
  obtain ⟨r1, rb, stp, r2⟩ := c
  by_cases h1 : r1 = SQLITE_OK
  · by_cases h2 : rb = SQLITE_OK
    · cases stp with
      | fail e =>
          have he := hwf e rfl
          simp [retrieve_password, h1, h2, he]
      | done =>
          rcases hfail with h | h | ⟨e, he⟩ | h
          · exact absurd h1 h
          · exact absurd h2 h
          · exact absurd he (by simp)
          · simp [retrieve_password, h1, h2, h]
      | row hh ss =>
          rcases hfail with h | h | ⟨e, he⟩ | h
          · exact absurd h1 h
          · exact absurd h2 h
          · exact absurd he (by simp)
          · simp [retrieve_password, h1, h2, h]
    · simp [retrieve_password, h1, h2]
  · simp [retrieve_password, h1]

/-- On a store without the table, `create_table` reports `SUCCESS` and adds
an empty table at the end. -/
theorem create_table_eq_new (db : DB) (n d : String) (h : hasTable db n = false) :
    create_table db n d = (SUCCESS, DB.mk (db.tables ++ [Table.mk n d []])) := by
  simp [create_table, countTable, createIfNotExists, h]

/-- Appending a table named `n` makes `n` present. -/
theorem hasTable_mk_append_self (db : DB) (n d : String) :
    hasTable (DB.mk (db.tables ++ [Table.mk n d []])) n = true := by
  simp [hasTable]

/-- Appending a table keeps every present table present. -/
theorem hasTable_mk_append_mono (db : DB) (n d m : String) (h : hasTable db m = true) :
    hasTable (DB.mk (db.tables ++ [Table.mk n d []])) m = true := by
  simp only [hasTable] at h ⊢
  simp [List.any_append, h]

/-- `create_table` leaves the table present. -/
theorem hasTable_create_self (db : DB) (n d : String) :
    hasTable (create_table db n d).2 n = true := by
  cases hb : hasTable db n with
  | false => rw [create_table_eq_new db n d hb]; exact hasTable_mk_append_self db n d
  | true =>
      have h2 : create_table db n d = (NOTREQUIRED, db) := by
        simp [create_table, countTable, hb]
      rw [h2]; exact hb

/-- `create_table` never removes a table. -/
theorem hasTable_create_mono (db : DB) (n d m : String) (h : hasTable db m = true) :
    hasTable (create_table db n d).2 m = true := by
  cases hb : hasTable db n with
  | false => rw [create_table_eq_new db n d hb]; exact hasTable_mk_append_mono db n d m h
  | true =>
      have h2 : create_table db n d = (NOTREQUIRED, db) := by
        simp [create_table, countTable, hb]
      rw [h2]; exact h

/-- On a store already holding the table, `create_table` reports
`NOTREQUIRED` and leaves the store untouched. -/
theorem create_table_already (db : DB) (n d : String) (h : hasTable db n = true) :
    create_table db n d = (NOTREQUIRED, db) := by
  simp [create_table, countTable, h]

/-- On a store holding all three tables, schema initialization reports
`NOTREQUIRED` three times and leaves the store untouched. -/
theorem init_tables_all_present (db : DB)
    (hp : hasTable db tblProfile = true) (ha : hasTable db tblAuth = true)
    (hsc : hasTable db tblSchedule = true) :
    init_tables db = ((NOTREQUIRED, NOTREQUIRED, NOTREQUIRED), db) := by
  simp only [init_tables]
  rw [create_table_already db tblProfile profileDefn hp]
  rw [create_table_already db tblAuth authDefn ha]
  rw [create_table_already db tblSchedule scheduleDefn hsc]

/-- After schema initialization, all three tables are present. -/
theorem init_tables_present (db : DB) :
    hasTable (init_tables db).2 tblProfile = true ∧
    hasTable (init_tables db).2 tblAuth = true ∧
    hasTable (init_tables db).2 tblSchedule = true := by
  simp only [init_tables]
  refine ⟨?_, ?_, ?_⟩
  · exact hasTable_create_mono _ _ _ _ (hasTable_create_mono _ _ _ _ (hasTable_create_self _ _ _))
  · exact hasTable_create_mono _ _ _ _ (hasTable_create_self _ _ _)
  · exact hasTable_create_self _ _ _

/-! ## The claims -/

/-- Claim C1, amended.  For every stored credential whose hash is nonempty
and whose hash and salt both fit the 65-byte retrieval buffers (at most 64
characters — a correct hash is exactly the 64-character digest), and every
supplied password, `unpwd_check` grants access iff the 64-character
lowercase hex encoding of SHA-256(salt ++ password) equals the stored hash,
denies otherwise, and replacing the stored hash of a granting credential by
any different value turns the Allow into a Deny.  The claim as originally
stated, without the 64-character bounds, is refuted by
`unpwd_check_long_hash_cex` (and by `unpwd_check_salt_truncated_cex` for
the salt). -/
theorem unpwd_check_registered_hash_iff (ctx : Context) (u hash hash2 salt pw : CStr)
    (hne : hash ≠ []) (hh : hash.length ≤ 64) (hs : salt.length ≤ 64)
    (hne2 : hash2 ≠ []) (hh2 : hash2.length ≤ 64) :
    (unpwd_check ctx (StmtCalls.mk SQLITE_OK SQLITE_OK (StepResult.row hash salt) SQLITE_OK)
        (some u) (some pw) = some MOSQ_ERR_SUCCESS
      ↔ hexEncode (sha256 (salt ++ pw)) = hash)
    ∧ (unpwd_check ctx (StmtCalls.mk SQLITE_OK SQLITE_OK (StepResult.row hash salt) SQLITE_OK)
        (some u) (some pw) = some MOSQ_ERR_AUTH
      ↔ hexEncode (sha256 (salt ++ pw)) ≠ hash)
    ∧ (hash2 ≠ hash →
        unpwd_check ctx (StmtCalls.mk SQLITE_OK SQLITE_OK (StepResult.row hash salt) SQLITE_OK)
          (some u) (some pw) = some MOSQ_ERR_SUCCESS →
        unpwd_check ctx (StmtCalls.mk SQLITE_OK SQLITE_OK (StepResult.row hash2 salt) SQLITE_OK)
          (some u) (some pw) = some MOSQ_ERR_AUTH) := by
  have e1 := unpwd_check_row_eq ctx u hash salt pw hne hh hs
  have e2 := unpwd_check_row_eq ctx u hash2 salt pw hne2 hh2 hs
  rw [e1, e2]
  by_cases hc : hexEncode (sha256 (salt ++ pw)) = hash
  · refine ⟨by simp [hc, MOSQ_ERR_SUCCESS], by simp [hc, MOSQ_ERR_AUTH, MOSQ_ERR_SUCCESS], ?_⟩
    intro hne3 _
    have hq : hexEncode (sha256 (salt ++ pw)) ≠ hash2 := by
      rw [hc]
      exact fun hx => hne3 hx.symm
    simp [if_neg hq]
  · refine ⟨by simp [hc, MOSQ_ERR_AUTH, MOSQ_ERR_SUCCESS], by simp [hc, MOSQ_ERR_AUTH], ?_⟩
    intro _ hsucc
    rw [if_neg hc] at hsucc
    simp [MOSQ_ERR_AUTH, MOSQ_ERR_SUCCESS] at hsucc

/-- Witness for C1: the spec's own example — salt "s1", password "hunter2",
stored hash the hex digest of "s1hunter2" — is granted. -/
theorem unpwd_check_registered_hash_iff_witness :
    unpwd_check (Context.mk none none)
      (StmtCalls.mk SQLITE_OK SQLITE_OK
        (StepResult.row (hexEncode (sha256 ([115, 49] ++ [104, 117, 110, 116, 101, 114, 50]))) [115, 49])
        SQLITE_OK)
      (some [117]) (some [104, 117, 110, 116, 101, 114, 50]) = some MOSQ_ERR_SUCCESS :=
  (unpwd_check_registered_hash_iff (Context.mk none none) [117]
      (hexEncode (sha256 ([115, 49] ++ [104, 117, 110, 116, 101, 114, 50]))) [97] [115, 49]
      [104, 117, 110, 116, 101, 114, 50]
      (hexDigest_ne_nil _) (hexDigest_length _).le (by decide) (by decide) (by decide)).1.mpr rfl

/-- Counterexample to C1 as stated: a stored credential whose hash column
holds the correct 64-character digest for salt "s" (byte 115) and password
"p" (byte 112) with one extra character appended (65 characters in total).
The claimed equivalence demands Deny — the digest of salt ++ password does
not equal the stored hash, the lengths already differ — but the code
truncates the retrieved hash to the 64 bytes fitting its buffer and
grants.  (The retrieved salt is truncated the same way; see
`unpwd_check_salt_truncated_cex`.) -/
theorem unpwd_check_long_hash_cex :
    unpwd_check (Context.mk none none)
      (StmtCalls.mk SQLITE_OK SQLITE_OK
        (StepResult.row (hexEncode (sha256 ([115] ++ [112])) ++ [97]) [115]) SQLITE_OK)
      (some [117]) (some [112]) = some MOSQ_ERR_SUCCESS
    ∧ hexEncode (sha256 ([115] ++ [112])) ≠ hexEncode (sha256 ([115] ++ [112])) ++ [97] := by
  have hlen : (hexEncode (sha256 ([115] ++ [112]))).length = 64 := hexDigest_length _
  have htake : (hexEncode (sha256 ([115] ++ [112])) ++ [97]).take 64
      = hexEncode (sha256 ([115] ++ [112])) := List.take_left' hlen
  constructor
  · rw [unpwd_check_row_raw _ _ _ _ _ (by rw [htake]; exact hexDigest_ne_nil _), htake]
    have hsalt : (List.take 64 [115] : CStr) = [115] := rfl
    rw [hsalt, if_pos rfl]
  · intro h
    have hl := congrArg List.length h
    rw [List.length_append, hexDigest_length] at hl
    simp at hl

/-- Claim C2 (confirmed).  For a username with no stored credential,
`unpwd_check` grants access iff either no guest secret is configured and no
password is supplied, or a guest secret is configured and the supplied
password is present and equal to it; in every other combination it
denies. -/
theorem unpwd_check_guest_iff (ctx : Context) (u : CStr) (pw : Option CStr) :
    (unpwd_check ctx (StmtCalls.mk SQLITE_OK SQLITE_OK StepResult.done SQLITE_OK) (some u) pw
        = some MOSQ_ERR_SUCCESS
      ↔ ((ctx.guestsecret = none ∧ pw = none) ∨ ∃ s, ctx.guestsecret = some s ∧ pw = some s))
    ∧ (unpwd_check ctx (StmtCalls.mk SQLITE_OK SQLITE_OK StepResult.done SQLITE_OK) (some u) pw
        = some MOSQ_ERR_AUTH
      ↔ ¬ ((ctx.guestsecret = none ∧ pw = none) ∨ ∃ s, ctx.guestsecret = some s ∧ pw = some s)) := by
  obtain ⟨su, gs⟩ := ctx
  cases gs with
  | none =>
      cases pw <;>
        simp [unpwd_check, retrieve_password, SQLITE_OK, MOSQ_ERR_SUCCESS, MOSQ_ERR_AUTH]
  | some g =>
      cases pw with
      | none =>
          simp [unpwd_check, retrieve_password, SQLITE_OK, MOSQ_ERR_SUCCESS, MOSQ_ERR_AUTH]
      | some p =>
          by_cases h : g = p <;>
            simp [unpwd_check, retrieve_password, SQLITE_OK, MOSQ_ERR_SUCCESS, MOSQ_ERR_AUTH, h,
              eq_comm]

/-- Claim C3 (confirmed).  For a non-superuser username `u` with clientId
equal to `u`, `acl_check` allows a topic iff the topic is at least
`u.length + 2` characters, starts with the characters of `u`, and has the
separator '/' (byte 47) right after them; and the only two outcomes are
Allow and Deny. -/
theorem acl_check_namespace_iff (ctx : Context) (u topic : CStr) (access : Nat)
    (hsu : ctx.superuser ≠ some u) :
    (acl_check ctx (some u) (some u) topic access = MOSQ_ERR_SUCCESS
      ↔ (u.length + 2 ≤ topic.length ∧ topic.take u.length = u ∧ topic.getD u.length 0 = 47))
    ∧ (acl_check ctx (some u) (some u) topic access = MOSQ_ERR_SUCCESS
        ∨ acl_check ctx (some u) (some u) topic access = MOSQ_ERR_ACL_DENIED) := by
  have hcid : ¬ (u ≠ u) := not_not_intro rfl
  constructor
  · simp only [acl_check, if_neg hsu, if_neg hcid]
    split_ifs with h1 h2 h3
    · exact iff_of_false (by decide) (fun ⟨ha, _, _⟩ => by omega)
    · exact iff_of_false (by decide) (fun ⟨_, hb, _⟩ => h2 hb)
    · exact iff_of_false (by decide) (fun ⟨_, _, hc⟩ => h3 hc)
    · exact iff_of_true rfl ⟨by omega, not_not.mp h2, not_not.mp h3⟩
  · simp only [acl_check, if_neg hsu]
    split_ifs <;> simp

/-- Witness for C3: user "u" (byte 117) may use topic "u/x". -/
theorem acl_check_namespace_iff_witness :
    acl_check (Context.mk none none) (some [117]) (some [117]) [117, 47, 120] 0 = MOSQ_ERR_SUCCESS :=
  (acl_check_namespace_iff (Context.mk none none) [117] [117, 47, 120] 0 (by decide)).1.mpr
    (by decide)

/-- Claim C4 (confirmed).  With a superuser configured and the username
equal to it, `acl_check` allows, for every present clientId (equal to the
username or not), every topic and every access kind. -/
theorem acl_check_superuser_bypass (ctx : Context) (su cid topic : CStr) (access : Nat)
    (h : ctx.superuser = some su) :
    acl_check ctx (some cid) (some su) topic access = MOSQ_ERR_SUCCESS := by
  simp [acl_check, h]

/-- Witness for C4: superuser "s" (byte 115) with a different clientId
(byte 99) may use the empty topic. -/
theorem acl_check_superuser_bypass_witness :
    acl_check (Context.mk (some [115]) none) (some [99]) (some [115]) [] 5 = MOSQ_ERR_SUCCESS :=
  acl_check_superuser_bypass (Context.mk (some [115]) none) [115] [99] [] 5 rfl

/-- Counterexample to C5 as stated: with no superuser configured, an empty
(but present) clientId and username are allowed topic "/x" — the code only
rejects NULL pointers, not empty strings, and the empty username passes the
identity and namespace checks. -/
theorem acl_check_empty_allowed_cex :
    acl_check (Context.mk none none) (some []) (some []) [47, 120] 0 = MOSQ_ERR_SUCCESS
    ∧ MOSQ_ERR_SUCCESS ≠ MOSQ_ERR_ACL_DENIED := by decide

/-- Claim C5, amended.  For every topic and access kind, `acl_check`
returns Deny whenever the clientId or the username is absent (NULL);
emptiness is not checked (see `acl_check_empty_allowed_cex`). -/
theorem acl_check_absent_deny (ctx : Context) (clientid username : Option CStr) (topic : CStr)
    (access : Nat) (h : clientid = none ∨ username = none) :
    acl_check ctx clientid username topic access = MOSQ_ERR_ACL_DENIED := by
  rcases h with h | h
  · subst h; cases username <;> rfl
  · subst h; cases clientid <;> rfl

/-- Witness for C5 (amended): an absent clientId is denied. -/
theorem acl_check_absent_deny_witness :
    acl_check (Context.mk none none) none (some [117]) [117, 47, 120] 0 = MOSQ_ERR_ACL_DENIED :=
  acl_check_absent_deny (Context.mk none none) none (some [117]) [117, 47, 120] 0 (Or.inl rfl)

/-- Claim C6, amended.  The supplied password is never truncated: for every
password, of any length, and every stored salt of at most 64 characters,
verification of the correct password (stored hash = hex digest of
salt ++ password) succeeds.  The stored salt and hash, however, pass
through 65-byte retrieval buffers and are truncated to 64 characters, so
the claim as originally stated fails for longer salts
(see `unpwd_check_salt_truncated_cex`). -/
theorem unpwd_check_password_unbounded (ctx : Context) (u salt pw : CStr)
    (hs : salt.length ≤ 64) :
    unpwd_check ctx
      (StmtCalls.mk SQLITE_OK SQLITE_OK
        (StepResult.row (hexEncode (sha256 (salt ++ pw))) salt) SQLITE_OK)
      (some u) (some pw) = some MOSQ_ERR_SUCCESS := by
  have hlen : (hexEncode (sha256 (salt ++ pw))).length = 64 := by
    rw [hexEncode_length, sha256_length]
  have hne : hexEncode (sha256 (salt ++ pw)) ≠ [] := by
    intro h
    rw [h] at hlen
    exact absurd hlen (by decide)
  rw [unpwd_check_row_eq ctx u _ salt pw hne hlen.le hs]
  simp

/-- Witness for C6: a 100-character password verifies against its correct
stored credential (salt "s", byte 115). -/
theorem unpwd_check_password_unbounded_witness :
    unpwd_check (Context.mk none none)
      (StmtCalls.mk SQLITE_OK SQLITE_OK
        (StepResult.row (hexEncode (sha256 ([115] ++ List.replicate 100 120))) [115]) SQLITE_OK)
      (some [117]) (some (List.replicate 100 120)) = some MOSQ_ERR_SUCCESS :=
  unpwd_check_password_unbounded (Context.mk none none) [117] [115] (List.replicate 100 120)
    (by decide)

set_option maxRecDepth 100000 in
/-- Counterexample to C6 as stated: a stored credential with a 65-character
salt (65 times 'b') and the correct stored hash for password "q" is denied,
because the retrieval buffer truncates the salt to 64 characters before
hashing — a length limit of the implementation breaks verification. -/
theorem unpwd_check_salt_truncated_cex :
    unpwd_check (Context.mk none none)
      (StmtCalls.mk SQLITE_OK SQLITE_OK
        (StepResult.row (hexEncode (sha256 (List.replicate 65 98 ++ [113]))) (List.replicate 65 98))
        SQLITE_OK)
      (some [117]) (some [113]) = some MOSQ_ERR_AUTH
    ∧ MOSQ_ERR_AUTH ≠ MOSQ_ERR_SUCCESS := by decide

/-- Claim C7 (confirmed).  When the credential lookup fails at any of its
four stages (with a nonzero code, as the SQLite API reports failures),
`unpwd_check` returns `MOSQ_ERR_UNKNOWN`, which is distinct from both Allow
(`MOSQ_ERR_SUCCESS`) and Deny (`MOSQ_ERR_AUTH`); and a lookup whose stages
all succeed finding no row returns `SQLITE_OK` with empty buffers — an
absent row is never reported as a store error. -/
theorem unpwd_check_store_error_indeterminate (ctx : Context) (u : CStr) (pw : Option CStr)
    (c c2 : StmtCalls)
    (hwf : ∀ e, c.step = StepResult.fail e → e ≠ SQLITE_OK)
    (hfail : c.reset1 ≠ SQLITE_OK ∨ c.bindRc ≠ SQLITE_OK ∨
             (∃ e, c.step = StepResult.fail e) ∨ c.reset2 ≠ SQLITE_OK)
    (h2 : c2.reset1 = SQLITE_OK ∧ c2.bindRc = SQLITE_OK ∧ c2.step = StepResult.done ∧
          c2.reset2 = SQLITE_OK) :
    unpwd_check ctx c (some u) pw = some MOSQ_ERR_UNKNOWN
    ∧ MOSQ_ERR_UNKNOWN ≠ MOSQ_ERR_SUCCESS
    ∧ MOSQ_ERR_UNKNOWN ≠ MOSQ_ERR_AUTH
    ∧ (retrieve_password c2 StmtState.ready).1 = (SQLITE_OK, some ([], [])) := by
  refine ⟨?_, by decide, by decide, ?_⟩
  · have hf := retrieve_password_fail_ne c StmtState.ready hwf hfail
    simp [unpwd_check, hf]
  · obtain ⟨e1, e2, e3, e4⟩ := h2
    obtain ⟨r1, rb, stp, r2⟩ := c2
    simp only at e1 e2 e3 e4
    subst e1; subst e2; subst e3; subst e4
    simp [retrieve_password]

/-- Witness for C7: a failing leading reset (code `SQLITE_ERROR`) yields
the indeterminate outcome. -/
theorem unpwd_check_store_error_indeterminate_witness :
    unpwd_check (Context.mk none none)
      (StmtCalls.mk SQLITE_ERROR SQLITE_OK StepResult.done SQLITE_OK) (some [117]) none
      = some MOSQ_ERR_UNKNOWN :=
  (unpwd_check_store_error_indeterminate (Context.mk none none) [117] none
      (StmtCalls.mk SQLITE_ERROR SQLITE_OK StepResult.done SQLITE_OK)
      (StmtCalls.mk SQLITE_OK SQLITE_OK StepResult.done SQLITE_OK)
      (fun _ h => nomatch h)
      (Or.inl (by decide))
      ⟨rfl, rfl, rfl, rfl⟩).1

/-- Claim C8 (confirmed).  Schema initialization is idempotent: running the
three `create_table` calls a second time reports `NOTREQUIRED` for all
three tables and returns the store — tables and rows — unchanged. -/
theorem init_tables_idempotent (db : DB) :
    init_tables (init_tables db).2
      = ((NOTREQUIRED, NOTREQUIRED, NOTREQUIRED), (init_tables db).2) := by
  obtain ⟨hp, ha, hsc⟩ := init_tables_present db
  exact init_tables_all_present (init_tables db).2 hp ha hsc

/-- Counterexample to C9 as stated: an invocation whose `sqlite3_step`
fails (code `SQLITE_ERROR`) returns without the trailing reset, leaving the
compiled query not in the reset state. -/
theorem retrieve_password_step_error_not_reset_cex :
    (retrieve_password (StmtCalls.mk SQLITE_OK SQLITE_OK (StepResult.fail SQLITE_ERROR) SQLITE_OK)
        StmtState.ready).2
      ≠ StmtState.ready := by decide

/-- Claim C9, amended.  Every invocation of the credential lookup whose
step stage does not fail — row found, no row found, and the reset/bind
failure paths alike — leaves the compiled query in the reset state; a step
failure returns with the query un-reset (the code compensates by resetting
at the start of every invocation, whatever the entry state). -/
theorem retrieve_password_reset_unless_step_error (c : StmtCalls) (entry : StmtState)
    (h : ∀ e, c.step ≠ StepResult.fail e) :
    (retrieve_password c entry).2 = StmtState.ready := by
  obtain ⟨r1, rb, stp, r2⟩ := c
  by_cases h1 : r1 = SQLITE_OK
  · by_cases h2 : rb = SQLITE_OK
    · cases stp with
      | fail e => exact absurd rfl (h e)
      | done => by_cases h3 : r2 = SQLITE_OK <;> simp [retrieve_password, h1, h2, h3]
      | row a b => by_cases h3 : r2 = SQLITE_OK <;> simp [retrieve_password, h1, h2, h3]
    · simp [retrieve_password, h1, h2]
  · simp [retrieve_password, h1]

/-- Witness for C9 (amended): a no-row lookup entered with a busy query
leaves it reset. -/
theorem retrieve_password_reset_unless_step_error_witness :
    (retrieve_password (StmtCalls.mk SQLITE_OK SQLITE_OK StepResult.done SQLITE_OK)
        StmtState.busy).2 = StmtState.ready :=
  retrieve_password_reset_unless_step_error
    (StmtCalls.mk SQLITE_OK SQLITE_OK StepResult.done SQLITE_OK) StmtState.busy
    (fun _ h => nomatch h)

/-- Claim C10 (confirmed).  For a registered username (the lookup returns a
row with a nonempty stored hash), `unpwd_check` is defined exactly when a
password is supplied: the embedding returns `none` (the C code calls
`strlen` on a NULL pointer with no guarding branch) iff the password is
absent, and under the password-present precondition the hashing branch is
total. -/
theorem unpwd_check_registered_requires_password (ctx : Context) (u hash salt : CStr)
    (pw : Option CStr) (hne : hash ≠ []) :
    (unpwd_check ctx (StmtCalls.mk SQLITE_OK SQLITE_OK (StepResult.row hash salt) SQLITE_OK)
        (some u) pw = none
      ↔ pw = none) := by
  cases pw with
  | none => simp [unpwd_check, retrieve_password, SQLITE_OK, hne]
  | some p => simp [unpwd_check, retrieve_password, SQLITE_OK, hne]

/-- Witness for C10: a registered user (stored hash "a") with an absent
password makes the embedding undefined. -/
theorem unpwd_check_registered_requires_password_witness :
    unpwd_check (Context.mk none none)
      (StmtCalls.mk SQLITE_OK SQLITE_OK (StepResult.row [97] []) SQLITE_OK) (some [117]) none
      = none :=
  (unpwd_check_registered_requires_password (Context.mk none none) [117] [97] [] none
    (by decide)).mpr rfl

end AutoHome
